import Mathlib

/-!
Verification of the e131_blinkt receiver core (`src/e131_receiver.cpp` and
`src/e131_receiver.hpp`) against its natural-language specification.

The development shallowly embeds the canonical, socket-owning receiver of
`e131_receiver.cpp` (the design the spec designates as authoritative): the
priority tracker, the source table, the channel buffer, and the
`socket_handler` / `update` drain loop.  External capabilities (the libe131
envelope decoder and the sd-event reactor) are modelled as the spec
describes them: decoded packets carry the decoder's validation verdict,
timers are an explicit armed-deadline table.
-/

/-- E1.31 network data loss timeout, in milliseconds (`e131_receiver.hpp`). -/
def network_data_loss_timeout : Nat := 2500

/-- Root-layer protocol vector identifying a payload of E1.31 data
(`e131_receiver.hpp`, `e131_data_vector { 0x00000004 }`). -/
def e131_data_vector : Nat := 4

/-- Baseline sentinel priority of the tracker.  The header shipped in the
repository defines `default_priority { 100 }`; the out-of-line definitions in
`e131_receiver.cpp` spell the same constant `minimum_priority` (declared in a
header revision not present in the sources), and the spec fixes the baseline
at the protocol's documented default of 100. -/
def minimum_priority : Nat := 100

/-- The tracker's `std::map<priority_type, count_type> prio_cnt` modelled as a
count function: `f p` is the stored count when the key `p` is present and `0`
when it is absent.  The C++ erases an entry as soon as its count drops to
zero or below, so present entries always hold positive counts and presence
is exactly `0 < f p`. -/
abbrev PrioCnt := Nat → Nat

/-- `priority::priority()`: `prio_cnt[minimum_priority] = 1`. -/
def prio_init : PrioCnt := fun q => if q = minimum_priority then 1 else 0

/-- `priority::add`: `++prio_cnt[p]` (`operator[]` creates an absent entry at
zero first, so the new count is the old present-or-zero count plus one). -/
def prio_add (f : PrioCnt) (p : Nat) : PrioCnt :=
  fun q => if q = p then f q + 1 else f q

/-- `priority::remove`: `--prio_cnt[p]; if (prio_cnt[p] <= 0) prio_cnt.erase(p);`.
With counts kept as the present-or-zero function, decrement followed by
erase-at-nonpositive is exactly truncated subtraction. -/
def prio_remove (f : PrioCnt) (p : Nat) : PrioCnt :=
  fun q => if q = p then f q - 1 else f q

/-- Greatest key strictly below `n` holding a positive count.  `priority_type`
is `uint8_t`, so all keys of the real map live below 256. -/
def maxBelow (f : PrioCnt) : Nat → Option Nat
  | 0 => none
  | n + 1 => if 0 < f n then some n else maxBelow f n

/-- Greatest key of the map, mirroring `prio_cnt.rbegin()->first`. -/
def maxKey (f : PrioCnt) : Option Nat := maxBelow f 256

/-- `priority::operator priority_type()`: `prio_cnt.rbegin()->first`.
Dereferencing `rbegin()` of an empty map is undefined behaviour in the C++;
the model returns 0 there, and the theorems about reachable trackers all
establish that the map is nonempty. -/
def currentMax (f : PrioCnt) : Nat := (maxKey f).getD 0

/-- `priority::sources()`: the count stored at the maximum key, less one when
the maximum key is the sentinel priority. -/
def prio_sources (f : PrioCnt) : Int :=
  if currentMax f = minimum_priority then (f (currentMax f) : Int) - 1
  else (f (currentMax f) : Int)

/-- One `add`/`remove` call on the tracker. -/
inductive PrioOp where
  | add : Nat → PrioOp
  | remove : Nat → PrioOp
deriving DecidableEq

/-- Effect of one tracker call on the count map. -/
def applyOp (f : PrioCnt) : PrioOp → PrioCnt
  | .add p => prio_add f p
  | .remove p => prio_remove f p

/-- Replay a call sequence from the count map `f`. -/
def runFrom (f : PrioCnt) (ops : List PrioOp) : PrioCnt := ops.foldl applyOp f

/-- Tracker state after a finite call sequence on a freshly constructed
tracker. -/
def run_ops (ops : List PrioOp) : PrioCnt := runFrom prio_init ops

/-- Per-priority number of currently active real additions of a call
sequence (adds minus removes, with the same truncation the map applies). -/
def active (ops : List PrioOp) : PrioCnt := runFrom (fun _ => 0) ops

/-- `wfFrom avail ops`: starting from per-priority available real counts
`avail`, every `add` uses an 8-bit priority and every `remove` takes away a
priority that is still active — the way the receiver itself drives the
tracker (it removes exactly the priorities it previously added). -/
def wfFrom : PrioCnt → List PrioOp → Bool
  | _, [] => true
  | a, .add p :: rest => decide (p < 256) && wfFrom (applyOp a (.add p)) rest
  | a, .remove p :: rest => decide (0 < a p) && wfFrom (applyOp a (.remove p)) rest

/-- Well-formed call sequence on a fresh tracker. -/
def wfOps (ops : List PrioOp) : Bool := wfFrom (fun _ => 0) ops

theorem applyOp_add_split (a : PrioCnt) (op : PrioOp)
    (hop : ∀ p, op = .remove p → 0 < a p) :
    applyOp (fun r => prio_init r + a r) op = fun r => prio_init r + applyOp a op r := by
  funext r
  cases op with
  | add p =>
      simp only [applyOp, prio_add]
      split <;> omega
  | remove p =>
      have := hop p rfl
      simp only [applyOp, prio_remove]
      split
      next h => subst h; omega
      next => rfl

theorem runFrom_split (ops : List PrioOp) : ∀ a : PrioCnt, wfFrom a ops = true →
    ∀ q, runFrom (fun r => prio_init r + a r) ops q = prio_init q + runFrom a ops q := by
  induction ops with
  | nil => intro a _ q; rfl
  | cons op rest ih =>
      intro a hwf q
      cases op with
      | add p =>
          simp only [wfFrom, Bool.and_eq_true] at hwf
          simp only [runFrom, List.foldl_cons]
          rw [applyOp_add_split a (.add p) (by intro p h; cases h)]
          exact ih (applyOp a (.add p)) hwf.2 q
      | remove p =>
          simp only [wfFrom, Bool.and_eq_true, decide_eq_true_eq] at hwf
          simp only [runFrom, List.foldl_cons]
          rw [applyOp_add_split a (.remove p) (by intro r h; cases h; exact hwf.1)]
          exact ih (applyOp a (.remove p)) hwf.2 q

/-- Under a well-formed call sequence, the count map is exactly the sentinel
entry plus the active real counts. -/
theorem run_ops_eq (ops : List PrioOp) (h : wfOps ops = true) (q : Nat) :
    run_ops ops q = prio_init q + active ops q := by
  have h0 : (fun r => prio_init r + (fun _ => 0 : PrioCnt) r) = prio_init := by
    funext r; simp
  have := runFrom_split ops (fun _ => 0) h q
  rw [h0] at this
  exact this

theorem active_high (ops : List PrioOp) : ∀ a : PrioCnt, wfFrom a ops = true →
    (∀ q, 256 ≤ q → a q = 0) → ∀ q, 256 ≤ q → runFrom a ops q = 0 := by
  induction ops with
  | nil => intro a _ ha q hq; exact ha q hq
  | cons op rest ih =>
      intro a hwf ha q hq
      cases op with
      | add p =>
          simp only [wfFrom, Bool.and_eq_true, decide_eq_true_eq] at hwf
          simp only [runFrom, List.foldl_cons]
          refine ih (applyOp a (.add p)) hwf.2 ?_ q hq
          intro r hr
          simp only [applyOp, prio_add]
          rw [if_neg (by omega)]
          exact ha r hr
      | remove p =>
          simp only [wfFrom, Bool.and_eq_true, decide_eq_true_eq] at hwf
          simp only [runFrom, List.foldl_cons]
          refine ih (applyOp a (.remove p)) hwf.2 ?_ q hq
          intro r hr
          simp only [applyOp, prio_remove]
          rw [ha r hr]
          simp

theorem maxBelow_mem {f : PrioCnt} : ∀ {n m : Nat}, maxBelow f n = some m →
    m < n ∧ 0 < f m := by
  intro n
  induction n with
  | zero => intro m h; cases h
  | succ n ih =>
      intro m h
      rw [maxBelow] at h
      split at h
      next hpos => cases h; exact ⟨Nat.lt_succ_self n, hpos⟩
      next => have := ih h; exact ⟨Nat.lt_succ_of_lt this.1, this.2⟩

theorem maxBelow_top {f : PrioCnt} : ∀ {n m : Nat}, maxBelow f n = some m →
    ∀ q, m < q → q < n → f q = 0 := by
  intro n
  induction n with
  | zero => intro m h; cases h
  | succ n ih =>
      intro m h q hmq hqn
      rw [maxBelow] at h
      split at h
      next hpos =>
        cases h
        omega
      next hnpos =>
        rcases Nat.lt_succ_iff_lt_or_eq.mp hqn with hlt | heq
        · exact ih h q hmq hlt
        · subst heq; omega

theorem maxBelow_none {f : PrioCnt} : ∀ {n : Nat}, maxBelow f n = none →
    ∀ q, q < n → f q = 0 := by
  intro n
  induction n with
  | zero => intro _ q h; omega
  | succ n ih =>
      intro h q hq
      rw [maxBelow] at h
      split at h
      next => cases h
      next hnpos =>
        rcases Nat.lt_succ_iff_lt_or_eq.mp hq with hlt | heq
        · exact ih h q hlt
        · subst heq; omega

theorem maxBelow_isSome {f : PrioCnt} {m : Nat} : ∀ {n : Nat}, 0 < f m → m < n →
    (maxBelow f n).isSome = true := by
  intro n
  induction n with
  | zero => intro _ h; omega
  | succ n ih =>
      intro hpos hlt
      rw [maxBelow]
      split
      next => rfl
      next hn =>
        rcases Nat.lt_succ_iff_lt_or_eq.mp hlt with h | h
        · exact ih hpos h
        · subst h; omega

theorem le_maxBelow {f : PrioCnt} {m m' n : Nat} (h : maxBelow f n = some m')
    (hpos : 0 < f m) (hlt : m < n) : m ≤ m' := by
  by_contra hgt
  push_neg at hgt
  have := maxBelow_top h m hgt hlt
  omega

theorem maxBelow_congr {f g : PrioCnt} : ∀ {n : Nat}, (∀ q, q < n → f q = g q) →
    maxBelow f n = maxBelow g n := by
  intro n
  induction n with
  | zero => intro _; rfl
  | succ n ih =>
      intro h
      rw [maxBelow, maxBelow, h n (Nat.lt_succ_self n)]
      split
      next => rfl
      next => exact ih (fun q hq => h q (Nat.lt_succ_of_lt hq))

/-- Claim C4: for every well-formed finite sequence of `add`/`remove` calls on
a freshly constructed tracker, the conversion `operator priority_type()`
yields the greatest priority with a nonzero count in the tracker, and yields
the baseline sentinel priority whenever no real source is active. -/
theorem claim_c4_tracker_max (ops : List PrioOp) (h : wfOps ops = true) :
    (0 < run_ops ops (currentMax (run_ops ops))
      ∧ ∀ q, currentMax (run_ops ops) < q → run_ops ops q = 0)
    ∧ ((∀ p, active ops p = 0) → currentMax (run_ops ops) = minimum_priority) := by
  have hsent : 0 < run_ops ops minimum_priority := by
    rw [run_ops_eq ops h]
    simp [prio_init]
  have hsome : (maxKey (run_ops ops)).isSome = true :=
    maxBelow_isSome hsent (by norm_num [minimum_priority])
  obtain ⟨m, hm⟩ := Option.isSome_iff_exists.mp hsome
  have hcm : currentMax (run_ops ops) = m := by
    simp [currentMax, hm]
  refine ⟨⟨?_, ?_⟩, ?_⟩
  · rw [hcm]
    exact (maxBelow_mem hm).2
  · intro q hq
    rw [hcm] at hq
    by_cases hq256 : q < 256
    · exact maxBelow_top hm q hq hq256
    · rw [run_ops_eq ops h]
      have h1 : prio_init q = 0 := by
        simp only [prio_init]
        rw [if_neg (by simp only [minimum_priority]; omega)]
      have h2 : active ops q = 0 := by
        have := active_high ops (fun _ => 0) h (fun _ _ => rfl) q (by omega)
        simpa [active] using this
      omega
  · intro hnone
    have hfeq : ∀ q, q < 256 → run_ops ops q = prio_init q := by
      intro q _
      rw [run_ops_eq ops h, hnone q]
      simp
    have : maxKey (run_ops ops) = maxKey prio_init := maxBelow_congr hfeq
    have hinit : maxKey prio_init = some minimum_priority := by decide
    simp [currentMax, this, hinit]

/-- Witness for Claim C4 at the concrete call sequence
`[add 120, add 50, remove 120]`. -/
theorem claim_c4_tracker_max_witness :
    wfOps [PrioOp.add 120, PrioOp.add 50, PrioOp.remove 120] = true
    ∧ 0 < run_ops [PrioOp.add 120, PrioOp.add 50, PrioOp.remove 120]
        (currentMax (run_ops [PrioOp.add 120, PrioOp.add 50, PrioOp.remove 120])) :=
  ⟨by decide,
    (claim_c4_tracker_max [PrioOp.add 120, PrioOp.add 50, PrioOp.remove 120]
      (by decide)).1.1⟩

/-- Claim C9: on every tracker state reached by a well-formed call sequence,
`priority::sources()` returns the count stored at the current maximum
priority minus one exactly when that maximum is the sentinel priority and
returns it unchanged otherwise; consequently it returns the number of real
active sources at the current maximum. -/
theorem claim_c9_sources (ops : List PrioOp) (h : wfOps ops = true) :
    (prio_sources (run_ops ops)
      = (if currentMax (run_ops ops) = minimum_priority
          then (run_ops ops (currentMax (run_ops ops)) : Int) - 1
          else (run_ops ops (currentMax (run_ops ops)) : Int)))
    ∧ prio_sources (run_ops ops) = (active ops (currentMax (run_ops ops)) : Int) := by
  refine ⟨rfl, ?_⟩
  have hval := run_ops_eq ops h (currentMax (run_ops ops))
  simp only [prio_sources]
  split
  next heq =>
    rw [hval, heq]
    simp [prio_init]
  next hne =>
    rw [hval]
    have : prio_init (currentMax (run_ops ops)) = 0 := by
      simp only [prio_init]
      rw [if_neg hne]
    rw [this]
    simp

/-- Witness for Claim C9 at the concrete call sequence
`[add 120, add 120, remove 120]`. -/
theorem claim_c9_sources_witness :
    wfOps [PrioOp.add 120, PrioOp.add 120, PrioOp.remove 120] = true
    ∧ prio_sources (run_ops [PrioOp.add 120, PrioOp.add 120, PrioOp.remove 120])
      = (active [PrioOp.add 120, PrioOp.add 120, PrioOp.remove 120]
          (currentMax (run_ops [PrioOp.add 120, PrioOp.add 120, PrioOp.remove 120])) : Int) :=
  ⟨by decide,
    (claim_c9_sources [PrioOp.add 120, PrioOp.add 120, PrioOp.remove 120] (by decide)).2⟩

/-- Source CID: the 16-byte identifier from the packet's root layer, compared
by exact byte equality. -/
abbrev Cid := List Nat

/-- The fields of a decoded E1.31 packet (`e131_packet_t`) the receiver reads,
in host byte order.  `validate_ok` carries the verdict of the external
envelope validator `e131_pkt_validate` and `preview` / `terminated` the two
`e131_get_option` flags, both supplied by the external libe131 decoding
capability.  `prop_val` is the contents of the DMP property-value array
(start code first) and `prop_val_cnt` the property-value count field. -/
structure Packet where
  validate_ok : Bool
  vector : Nat
  cid : Cid
  priority : Nat
  seq_number : Nat
  universe_number : Nat
  preview : Bool
  terminated : Bool
  prop_val_cnt : Nat
  prop_val : List Nat
deriving DecidableEq

/-- `update_event::event_type` of the receiver. -/
inductive EventType where
  | NONE
  | CHANNEL_DATA_UPDATED
  | SOURCE_ADDED
  | SOURCE_REMOVED
  | SOURCE_LIMIT_REACHED
  | FATAL_ERROR
deriving DecidableEq

/-- An entry of the receiver's event queue (`update_event`: kind plus source
id). -/
structure Event where
  event : EventType
  id : Cid
deriving DecidableEq

/-- Per-source record (`struct source` of the canonical receiver): cid,
stored priority, last data and synchronization sequence numbers, and the
owned eviction-timer event source, modelled by the armed timer's handle
(`none` models a null `unique_ptr`). -/
structure Source where
  uuid : Cid
  prio : Nat
  sequence_data : Nat
  sequence_synchronization : Nat
  timer_evs : Option Nat
deriving DecidableEq

/-- A value-initialized `source`, as produced by `std::map::operator[]` on an
absent key: empty cid, zero priority and sequence numbers, null timer. -/
def default_source : Source := ⟨[], 0, 0, 0, none⟩

/-- Association-list lookup, mirroring `std::map::find`. -/
def alookup {α β : Type} [DecidableEq α] : List (α × β) → α → Option β
  | [], _ => none
  | kv :: rest, k => if kv.1 = k then some kv.2 else alookup rest k

/-- Association-list erase, mirroring `std::map::erase`. -/
def aerase {α β : Type} [DecidableEq α] (l : List (α × β)) (k : α) : List (α × β) :=
  l.filter (fun kv => decide (kv.1 ≠ k))

/-- Update the value stored under key `k` in place. -/
def aset {α β : Type} [DecidableEq α] (l : List (α × β)) (k : α) (g : β → β) :
    List (α × β) :=
  l.map (fun kv => if kv.1 = k then (kv.1, g kv.2) else kv)

/-- Modelled from the spec: the duplicate-rejection capability
`e131_pkt_discard` of the external libe131 library (not part of this
repository).  Per the spec, the signed difference `candidate - last_seen`
over the 8-bit space is taken, and a non-positive difference within the
protocol's rejection band (20) means the packet is stale. -/
def e131_pkt_discard (seq last : Nat) : Bool :=
  let d := (seq % 256 + 256 - last % 256) % 256
  let sd : Int := if d < 128 then (d : Int) else (d : Int) - 256
  decide (-20 < sd) && decide (sd ≤ 0)

/-- State of one E1.31 `universe` of the canonical receiver: the priority
tracker, the source table, the 512-byte channel buffer, the event queue of
the current `update()` call, the configuration, and the reactor-side timer
bookkeeping (armed timers with their deadlines in microseconds, the
event-source-to-cid map `evs_cid`, a fresh-handle counter and the monotonic
clock `sd_event_now` reads). -/
structure Universe where
  prio : PrioCnt
  srcs : List (Cid × Source)
  channel_data : List Nat
  queued_events : List Event
  max_sources : Nat
  ignore_preview_flag : Bool
  uni : Nat
  timers : List (Nat × Nat)
  evs_cid : List (Nat × Cid)
  next_evs : Nat
  now : Nat

/-- `universe::valid_packet`: the envelope validates, the root vector is the
data vector, the universe number matches, and the preview option is unset or
ignored. -/
def Universe.valid_packet (u : Universe) (pkt : Packet) : Bool :=
  pkt.validate_ok && (pkt.vector == e131_data_vector)
    && (pkt.universe_number == u.uni)
    && (!pkt.preview || u.ignore_preview_flag)

/-- The exception thrown by `universe::add_source` when the source table is
full (`source_limit_reached_event`, which does not derive from
`std::exception`). -/
inductive AddErr where
  | limit : Cid → AddErr

/-- `universe::add_source`: throws the limit event when the table is full;
otherwise arms a fresh eviction timer, registers the priority and the source
record, and queues `SOURCE_ADDED`.  The reactor primitives (`sd_event_now`,
`sd_event_add_time`) are modelled as succeeding. -/
def Universe.add_source (u : Universe) (uuid : Cid) (pkt : Packet) :
    Except AddErr Universe :=
  if u.srcs.length = u.max_sources then .error (.limit uuid)
  else
    let evs := u.next_evs
    let src : Source := ⟨uuid, pkt.priority, pkt.seq_number, 0, some evs⟩
    .ok { u with
      prio := prio_add u.prio pkt.priority,
      srcs := (uuid, src) :: u.srcs,
      timers := (evs, u.now + network_data_loss_timeout * 1000) :: u.timers,
      evs_cid := (evs, uuid) :: u.evs_cid,
      next_evs := evs + 1,
      queued_events := u.queued_events ++ [⟨.SOURCE_ADDED, uuid⟩] }

/-- Erase the `evs_cid` entry of a timer handle; a null handle
(`unique_ptr::get()` returning `nullptr`) erases nothing. -/
def eraseCidOpt (ec : List (Nat × Cid)) : Option Nat → List (Nat × Cid)
  | none => ec
  | some h => aerase ec h

/-- Disarm a timer handle; erasing the source record destroys its owned
`sd_event_source`, so the timer can no longer fire. -/
def eraseTimerOpt (timers : List (Nat × Nat)) : Option Nat → List (Nat × Nat)
  | none => timers
  | some h => aerase timers h

/-- `universe::remove_source`: removes the stored priority from the tracker,
drops the `evs_cid` back-reference, erases the record (destroying, hence
disarming, its eviction timer) and queues `SOURCE_REMOVED`. -/
def Universe.remove_source (u : Universe) (src : Source) : Universe :=
  { u with
    prio := prio_remove u.prio src.prio,
    evs_cid := eraseCidOpt u.evs_cid src.timer_evs,
    srcs := aerase u.srcs src.uuid,
    timers := eraseTimerOpt u.timers src.timer_evs,
    queued_events := u.queued_events ++ [⟨.SOURCE_REMOVED, src.uuid⟩] }

/-- `universe::source_timer_reset`: pushes the source's eviction deadline out
by the network data loss timeout.  `sd_event_source_set_time` on a null
event source fails, which the C++ turns into a thrown `std::system_error`,
modelled by the error result. -/
def Universe.source_timer_reset (u : Universe) (src : Source) :
    Except Unit Universe :=
  match src.timer_evs with
  | none => .error ()
  | some h =>
      .ok { u with
        timers := aset u.timers h (fun _ => u.now + network_data_loss_timeout * 1000) }

/-- `std::copy(prop_val + 1, prop_val + be16toh(prop_val_cnt),
channel_data.data())`: the `cnt - 1` property values following the start code
overwrite the first `cnt - 1` channels; the rest of the buffer keeps its old
contents. -/
def copy_payload (prop_val : List Nat) (cnt : Nat) (chan : List Nat) : List Nat :=
  (prop_val.drop 1).take (cnt - 1) ++ chan.drop (cnt - 1)

/-- Outcome of one iteration of the `socket_handler` drain loop: continue
with the next datagram, `break` out of the loop (handler then returns true),
a caught `std::exception` (handler returns false), or the
`source_limit_reached_event` throw, which the handler's
`catch (const std::exception&)` clause does not catch. -/
inductive StepOut where
  | cont : Universe → StepOut
  | broke : Universe → StepOut
  | caught : Universe → StepOut
  | uncaught : Universe → Cid → StepOut

/-- Universe state carried by a step outcome. -/
def StepOut.state : StepOut → Universe
  | .cont u => u
  | .broke u => u
  | .caught u => u
  | .uncaught u _ => u

/-- Whether the drain loop proceeds to the next datagram. -/
def StepOut.isCont : StepOut → Bool
  | .cont _ => true
  | _ => false

/-- Whether the iteration broke out of the drain loop. -/
def StepOut.isBroke : StepOut → Bool
  | .broke _ => true
  | _ => false

/-- The channel-buffer update guard of `socket_handler`:
`(pkt.frame.priority >= prio) && pkt.dmp.prop_val_cnt
&& (pkt.dmp.prop_val[0] == 0x00)`, evaluated against the tracker state `f`
current at that point. -/
def docopyB (f : PrioCnt) (pkt : Packet) : Bool :=
  decide (currentMax f ≤ pkt.priority)
    && !(pkt.prop_val_cnt == 0) && (pkt.prop_val.headD 1 == 0)

/-- Tail of one drain-loop iteration, from `source& src { srcs[uuid] };`
(`operator[]`, which value-initializes an entry for an absent key — reachable
when a terminated packet just erased the record) through the timer reset, the
channel-buffer update rule, and the sequence-number store. -/
def Universe.after_registration (u : Universe) (uuid : Cid) (pkt : Packet) :
    StepOut :=
  let found :=
    match alookup u.srcs uuid with
    | some s => (u, s)
    | none => ({ u with srcs := (uuid, default_source) :: u.srcs }, default_source)
  match found.1.source_timer_reset found.2 with
  | .error _ => .caught found.1
  | .ok u2 =>
      let docopy := docopyB u2.prio pkt
      let u3 :=
        if docopy then
          { u2 with
            channel_data := copy_payload pkt.prop_val pkt.prop_val_cnt u2.channel_data,
            queued_events := u2.queued_events ++ [⟨.CHANNEL_DATA_UPDATED, uuid⟩] }
        else u2
      .cont { u3 with
        srcs := aset u3.srcs uuid (fun s => { s with sequence_data := pkt.seq_number }) }

/-- One iteration of the `universe::socket_handler` drain loop, after
`e131_recv` produced the datagram `pkt`.  For a terminated packet from a
registered source the C++ erases the record and then keeps using the
dangling reference `src` (a use-after-free): the model adopts the
deterministic reading that the freed node still holds its old field values
while stores through the dangling reference are lost. -/
def Universe.step (u : Universe) (pkt : Packet) : StepOut :=
  if !(u.valid_packet pkt) then .broke u
  else
    let uuid := pkt.cid
    match alookup u.srcs uuid with
    | some src0 =>
        if e131_pkt_discard pkt.seq_number src0.sequence_data then .broke u
        else
          let u1 := if pkt.terminated then u.remove_source src0 else u
          let u2 :=
            if pkt.priority ≠ src0.prio then
              let f2 := prio_add (prio_remove u1.prio src0.prio) pkt.priority
              let ua := { u1 with prio := f2 }
              if pkt.terminated then ua
              else
                { ua with
                  srcs := aset ua.srcs uuid (fun s => { s with prio := currentMax f2 }) }
            else u1
          u2.after_registration uuid pkt
    | none =>
        if pkt.terminated then .broke u
        else
          match u.add_source uuid pkt with
          | .error (.limit id) => .uncaught u id
          | .ok u1 => u1.after_registration uuid pkt

/-- Result of `universe::socket_handler`: a normal boolean return, or the
escape of the thrown `source_limit_reached_event` past the
`catch (const std::exception&)` clause. -/
inductive HandlerOut where
  | ret : Universe → Bool → HandlerOut
  | uncaught : Universe → Cid → HandlerOut

/-- Universe state carried by a handler outcome. -/
def HandlerOut.state : HandlerOut → Universe
  | .ret u _ => u
  | .uncaught u _ => u

/-- Whether the handler returned true. -/
def HandlerOut.succeeded : HandlerOut → Bool
  | .ret _ b => b
  | .uncaught _ _ => false

/-- `universe::socket_handler`, drained over the finite list of datagrams
currently pending on the non-blocking socket; an empty list models
`e131_recv` reporting `EWOULDBLOCK`, which breaks the loop and returns
true. -/
def Universe.socket_handler : Universe → List Packet → HandlerOut
  | u, [] => .ret u true
  | u, pkt :: rest =>
      match u.step pkt with
      | .cont u1 => u1.socket_handler rest
      | .broke u1 => .ret u1 true
      | .caught u1 => .ret u1 false
      | .uncaught u1 id => .uncaught u1 id

/-- `universe::timer_callback` for an armed timer handle: look up the cid
behind the event source and remove that source. -/
def Universe.timer_fire (u : Universe) (h : Nat) : Universe :=
  match alookup u.timers h with
  | none => u
  | some _ =>
      match alookup u.evs_cid h with
      | none => u
      | some uuid =>
          match alookup u.srcs uuid with
          | none => u
          | some src => u.remove_source src

/-- Result of `universe::update()`: normal return of the event queue, the
degraded state after `socket_handler` returned false (`sd_event_exit` was
requested), or the crash of the escaped limit exception. -/
inductive UpdateOut where
  | ok : Universe → UpdateOut
  | degraded : Universe → UpdateOut
  | crashed : Universe → Cid → UpdateOut

/-- `universe::update()`: clears the event queue, then drains every
currently pending cause — the eviction timers that have expired and the
datagrams pending on the socket — through the reactor. -/
def Universe.update (u : Universe) (expired : List Nat) (pending : List Packet) :
    UpdateOut :=
  let u0 := { u with queued_events := ([] : List Event) }
  let u1 := expired.foldl Universe.timer_fire u0
  match u1.socket_handler pending with
  | .ret u2 true => .ok u2
  | .ret u2 false => .degraded u2
  | .uncaught u2 id => .crashed u2 id

/-- A 16-byte source id used by the concrete scenarios. -/
def cidA : Cid := List.replicate 16 1

/-- A second, distinct 16-byte source id. -/
def cidB : Cid := List.replicate 16 2

/-- A freshly constructed universe listening on universe number 1 with room
for five sources. -/
def u_base : Universe :=
  { prio := prio_init, srcs := [], channel_data := List.replicate 512 0,
    queued_events := [], max_sources := 5, ignore_preview_flag := false,
    uni := 1, timers := [], evs_cid := [], next_evs := 0, now := 0 }

/-- The record of an active source `A` at priority 100, last data sequence 5,
owning armed timer handle 0. -/
def srcA : Source := ⟨cidA, 100, 5, 0, some 0⟩

/-- `u_base` after source `A` registered at priority 100: its count is in
the tracker, its record in the table, its eviction timer armed. -/
def u_withA : Universe :=
  { u_base with
    prio := prio_add prio_init 100, srcs := [(cidA, srcA)],
    channel_data := List.replicate 512 7, timers := [(0, 2500000)],
    evs_cid := [(0, cidA)], next_evs := 1 }

/-- An admissible, non-stale packet from `A` with the termination option
set, at `A`'s stored priority. -/
def pkt_term_A : Packet :=
  ⟨true, 4, cidA, 100, 6, 1, false, true, 513, 0 :: List.replicate 512 9⟩

/-- An admissible, non-stale, non-terminating packet from `A` whose priority
field (50) differs from `A`'s stored priority (100). -/
def pkt_prio50_A : Packet := ⟨true, 4, cidA, 50, 6, 1, false, false, 1, [0]⟩

/-- An admissible, non-terminating packet from the unseen source `B`. -/
def pkt_newB : Packet := ⟨true, 4, cidB, 100, 0, 1, false, false, 1, [0]⟩

/-- A packet from `B` addressed to universe 2: inadmissible for a universe
configured with number 1. -/
def pkt_badU : Packet := ⟨true, 4, cidB, 100, 0, 2, false, false, 1, [0]⟩

/-- An admissible, non-terminating packet from the unseen source `B` at
priority 50 with start code 0 and payload all `0x01`. -/
def pkt_b50 : Packet :=
  ⟨true, 4, cidB, 50, 0, 1, false, false, 513, 0 :: List.replicate 512 1⟩

/-- `u_withA` with the source limit lowered to one, so the table is full. -/
def u_limit1 : Universe := { u_withA with max_sources := 1 }

/-- Claim C7: update() with no pending datagrams and no expired timer
returns the empty event sequence and leaves every other universe field
unchanged; and the event queue is cleared at the start of every update()
call, so the result never depends on previously queued events. -/
theorem claim_c7_update_idempotent (u : Universe) :
    u.update [] [] = .ok { u with queued_events := [] }
    ∧ ∀ (q : List Event) (expired : List Nat) (pending : List Packet),
        ({ u with queued_events := q } : Universe).update expired pending
          = u.update expired pending :=
  ⟨rfl, fun _ _ _ => rfl⟩

/-- Claim C2: the code does remove a terminated source and queue
`SOURCE_REMOVED` with its eviction timer disarmed, but control then falls
through the rest of the loop body instead of bypassing it: `srcs[uuid]`
re-inserts a value-initialized ghost record for the removed id and the
timer reset on its null event source makes `socket_handler` fail, so at the
end of the call the id is back in the source table and the handler did not
continue normally. -/
theorem claim_c2_termination_falls_through :
    (u_withA.socket_handler [pkt_term_A]).succeeded = false
    ∧ alookup (u_withA.socket_handler [pkt_term_A]).state.srcs cidA
        = some default_source
    ∧ (u_withA.socket_handler [pkt_term_A]).state.queued_events
        = [⟨.SOURCE_REMOVED, cidA⟩]
    ∧ (u_withA.socket_handler [pkt_term_A]).state.timers = [] := by
  decide

/-- Claim C3: on a priority change the tracker's count is moved from the old
key to the packet's key, but `src.prio = prio.add(pkt.frame.priority)`
stores the return value of `add` — the tracker's new maximum (here 100, the
sentinel's priority) — rather than the packet's priority (50), so the source
record's stored priority does not equal the packet's priority. -/
theorem claim_c3_priority_move_bug :
    (u_withA.step pkt_prio50_A).isCont = true
    ∧ (u_withA.step pkt_prio50_A).state.prio 50 = 1
    ∧ (u_withA.step pkt_prio50_A).state.prio 100 = 1
    ∧ alookup (u_withA.step pkt_prio50_A).state.srcs cidA
        = some ⟨cidA, 100, 6, 0, some 0⟩
    ∧ pkt_prio50_A.priority = 50 := by
  decide

/-- Claim C6: with the source table full, a packet from an unseen id makes
`add_source` throw `source_limit_reached_event`; the throw escapes
`socket_handler`'s `catch (const std::exception&)` clause, so no
`SOURCE_LIMIT_REACHED` event is queued and the drain does not continue
normally — the source table and priority tracker are left unchanged. -/
theorem claim_c6_limit_throw_escapes :
    u_limit1.socket_handler [pkt_newB] = .uncaught u_limit1 cidB
    ∧ u_limit1.queued_events = [] :=
  ⟨rfl, rfl⟩

/-- Claim C8, counterexample: an inadmissible datagram (wrong universe)
breaks the drain loop, so the admissible datagram from the unseen source `B`
pending behind it is not processed in the same call — the universe is left
exactly as it was, with `B` absent — even though that datagram alone would
have been processed. -/
theorem claim_c8_drain_stops_counterexample :
    u_base.valid_packet pkt_newB = true
    ∧ (u_base.step pkt_newB).isCont = true
    ∧ u_base.socket_handler [pkt_badU, pkt_newB] = .ret u_base true :=
  ⟨by decide, by decide, rfl⟩

/-- Claim C8, amended: the drain loop of one `socket_handler` call processes
pending datagrams in order only until the first discarded one — a datagram
that is inadmissible, stale, or terminated-from-an-unknown-source breaks the
loop, and the datagrams behind it are left for later calls. -/
theorem claim_c8_drain_stops (u : Universe) (pkt : Packet) (rest : List Packet)
    (h : (u.step pkt).isBroke = true) :
    u.socket_handler (pkt :: rest) = u.socket_handler [pkt] := by
  cases hs : u.step pkt <;> simp_all [Universe.socket_handler, StepOut.isBroke]

/-- Witness for the amended Claim C8 at a concrete inadmissible datagram
followed by an admissible one. -/
theorem claim_c8_drain_stops_witness :
    (u_base.step pkt_badU).isBroke = true
    ∧ u_base.socket_handler [pkt_badU, pkt_newB] = u_base.socket_handler [pkt_badU] :=
  ⟨by decide, claim_c8_drain_stops u_base pkt_badU [pkt_newB] (by decide)⟩

/-- Claim C5: under the spec's standing assumption that malformed envelopes
are rejected upstream (the external validator accepted the packet),
`valid_packet` holds iff the root vector identifies E1.31 data, the universe
number matches the configured one, and the preview option is unset or
previews are ignored. -/
theorem claim_c5_admissibility (u : Universe) (pkt : Packet)
    (h : pkt.validate_ok = true) :
    u.valid_packet pkt = true ↔
      (pkt.vector = e131_data_vector ∧ pkt.universe_number = u.uni
        ∧ (pkt.preview = false ∨ u.ignore_preview_flag = true)) := by
  simp [Universe.valid_packet, h, and_assoc, Bool.or_eq_true, Bool.not_eq_true']

/-- Witness for Claim C5 at a concrete validated packet. -/
theorem claim_c5_admissibility_witness :
    pkt_newB.validate_ok = true
    ∧ (u_base.valid_packet pkt_newB = true ↔
        (pkt_newB.vector = e131_data_vector ∧ pkt_newB.universe_number = u_base.uni
          ∧ (pkt_newB.preview = false ∨ u_base.ignore_preview_flag = true))) :=
  ⟨by decide, claim_c5_admissibility u_base pkt_newB (by decide)⟩

theorem alookup_cons_self {α β : Type} [DecidableEq α] (l : List (α × β))
    (k : α) (v : β) : alookup ((k, v) :: l) k = some v := by
  simp [alookup]

theorem alookup_aset_self {α β : Type} [DecidableEq α] (l : List (α × β))
    (k : α) (g : β → β) : alookup (aset l k g) k = (alookup l k).map g := by
  induction l with
  | nil => rfl
  | cons kv rest ih =>
      by_cases hk : kv.1 = k
      · simp [aset, alookup, hk]
      · simpa [aset, alookup, hk] using ih

theorem prio_add_pos {f : PrioCnt} {q : Nat} (h : 0 < f q) (p : Nat) :
    0 < prio_add f p q := by
  simp only [prio_add]
  split <;> omega

theorem le_currentMax_of_pos {f : PrioCnt} {m : Nat} (hpos : 0 < f m)
    (hlt : m < 256) : m ≤ currentMax f := by
  have hsome := maxBelow_isSome (f := f) hpos hlt
  obtain ⟨m1, hm1⟩ := Option.isSome_iff_exists.mp hsome
  have := le_maxBelow hm1 hpos hlt
  simpa [currentMax, maxKey, hm1] using this

theorem currentMax_pos_mem {f : PrioCnt} {b : Nat} (h : b ≤ currentMax f)
    (hb : 0 < b) : 0 < f (currentMax f) ∧ currentMax f < 256 := by
  cases hm : maxKey f with
  | none =>
      exfalso
      have : currentMax f = 0 := by simp [currentMax, hm]
      omega
  | some m =>
      have hcm : currentMax f = m := by simp [currentMax, hm]
      have := maxBelow_mem (f := f) (n := 256) (m := m) hm
      rw [hcm]
      exact ⟨this.2, this.1⟩

/-- After the record for `uuid` has been found (with an armed timer), the
rest of the loop iteration reschedules that timer, applies the
channel-buffer update rule, stores the sequence number, and continues. -/
theorem after_registration_found (u : Universe) (uuid : Cid) (pkt : Packet)
    (s : Source) (hnd : Nat) (hl : alookup u.srcs uuid = some s)
    (ht : s.timer_evs = some hnd) :
    u.after_registration uuid pkt = .cont
      { u with
        srcs := aset u.srcs uuid (fun r => { r with sequence_data := pkt.seq_number }),
        channel_data :=
          if docopyB u.prio pkt then
            copy_payload pkt.prop_val pkt.prop_val_cnt u.channel_data
          else u.channel_data,
        queued_events := u.queued_events
          ++ (if docopyB u.prio pkt then [⟨.CHANNEL_DATA_UPDATED, uuid⟩] else []),
        timers := aset u.timers hnd
          (fun _ => u.now + network_data_loss_timeout * 1000) } := by
  simp only [Universe.after_registration, hl, Universe.source_timer_reset, ht]
  by_cases hC : docopyB u.prio pkt
  · simp [hC]
  · simp [hC]

/-- If the record for `uuid` is found with a null timer handle, the timer
reset fails and the iteration ends with a caught exception. -/
theorem after_registration_null_timer (u : Universe) (uuid : Cid) (pkt : Packet)
    (s : Source) (hl : alookup u.srcs uuid = some s)
    (ht : s.timer_evs = none) :
    u.after_registration uuid pkt = .caught u := by
  simp only [Universe.after_registration, hl, Universe.source_timer_reset, ht]

/-- Claim C1: for every admissible, non-discarded, non-terminating packet
carrying at least one property value that the drain loop processes to
completion, the channel buffer is overwritten with the packet's payload and
`CHANNEL_DATA_UPDATED` is queued iff the payload start code is 0 and the
packet's priority is at least the tracker's current maximum evaluated after
any priority-tracker update for this packet; a new source additionally
yields `SOURCE_ADDED`, so a lower-priority packet from a new source queues
`SOURCE_ADDED` but leaves the channel buffer unchanged. -/
theorem claim_c1_channel_update_rule (u : Universe) (pkt : Packet)
    (hterm : pkt.terminated = false)
    (hcnt : 0 < pkt.prop_val_cnt)
    (hcont : (u.step pkt).isCont = true) :
    ((u.step pkt).state.channel_data
        = if (pkt.prop_val.headD 1 == 0)
              && decide (currentMax (u.step pkt).state.prio ≤ pkt.priority)
          then copy_payload pkt.prop_val pkt.prop_val_cnt u.channel_data
          else u.channel_data)
    ∧ ((u.step pkt).state.queued_events
        = u.queued_events
          ++ (if (alookup u.srcs pkt.cid).isNone
              then [⟨.SOURCE_ADDED, pkt.cid⟩] else [])
          ++ (if (pkt.prop_val.headD 1 == 0)
                && decide (currentMax (u.step pkt).state.prio ≤ pkt.priority)
              then [⟨.CHANNEL_DATA_UPDATED, pkt.cid⟩] else [])) := by
  have hcntb : (pkt.prop_val_cnt == 0) = false := by
    simp only [beq_eq_false_iff_ne, ne_eq]
    omega
  cases hv : u.valid_packet pkt with
  | false =>
      have hstep : u.step pkt = .broke u := by
        simp [Universe.step, hv]
      rw [hstep] at hcont
      simp [StepOut.isCont] at hcont
  | true =>
      cases hl : alookup u.srcs pkt.cid with
      | some src0 =>
          cases hd : e131_pkt_discard pkt.seq_number src0.sequence_data with
          | true =>
              have hstep : u.step pkt = .broke u := by
                simp [Universe.step, hv, hl, hd]
              rw [hstep] at hcont
              simp [StepOut.isCont] at hcont
          | false =>
              by_cases hp : pkt.priority = src0.prio
              · have hstep : u.step pkt = u.after_registration pkt.cid pkt := by
                  simp [Universe.step, hv, hl, hd, hterm, hp]
                cases hte : src0.timer_evs with
                | none =>
                    rw [hstep,
                      after_registration_null_timer u pkt.cid pkt src0 hl hte] at hcont
                    simp [StepOut.isCont] at hcont
                | some hnd =>
                    rw [hstep, after_registration_found u pkt.cid pkt src0 hnd hl hte]
                    refine ⟨?_, ?_⟩ <;>
                      simp [StepOut.state, docopyB, hcntb, hl, Bool.and_comm]
              · have hstep : u.step pkt =
                    ({ u with
                      prio := prio_add (prio_remove u.prio src0.prio) pkt.priority,
                      srcs := aset u.srcs pkt.cid (fun s => { s with
                        prio := currentMax
                          (prio_add (prio_remove u.prio src0.prio) pkt.priority) }) }
                      : Universe).after_registration pkt.cid pkt := by
                  simp [Universe.step, hv, hl, hd, hterm, hp]
                have hl2 : alookup
                    ({ u with
                      prio := prio_add (prio_remove u.prio src0.prio) pkt.priority,
                      srcs := aset u.srcs pkt.cid (fun s => { s with
                        prio := currentMax
                          (prio_add (prio_remove u.prio src0.prio) pkt.priority) }) }
                      : Universe).srcs pkt.cid
                    = some { src0 with
                        prio := currentMax
                          (prio_add (prio_remove u.prio src0.prio) pkt.priority) } := by
                  simp [alookup_aset_self, hl]
                cases hte : src0.timer_evs with
                | none =>
                    rw [hstep, after_registration_null_timer _ pkt.cid pkt _ hl2 hte] at hcont
                    simp [StepOut.isCont] at hcont
                | some hnd =>
                    rw [hstep, after_registration_found _ pkt.cid pkt _ hnd hl2 hte]
                    refine ⟨?_, ?_⟩ <;>
                      simp [StepOut.state, docopyB, hcntb, hl, Bool.and_comm]
      | none =>
          by_cases hlen : u.srcs.length = u.max_sources
          · have hstep : u.step pkt = .uncaught u pkt.cid := by
              simp [Universe.step, hv, hl, hterm, Universe.add_source, hlen]
            rw [hstep] at hcont
            simp [StepOut.isCont] at hcont
          · have hstep : u.step pkt =
                ({ u with
                  prio := prio_add u.prio pkt.priority,
                  srcs := (pkt.cid,
                    (⟨pkt.cid, pkt.priority, pkt.seq_number, 0, some u.next_evs⟩ : Source))
                    :: u.srcs,
                  timers := (u.next_evs, u.now + network_data_loss_timeout * 1000)
                    :: u.timers,
                  evs_cid := (u.next_evs, pkt.cid) :: u.evs_cid,
                  next_evs := u.next_evs + 1,
                  queued_events := u.queued_events ++ [⟨.SOURCE_ADDED, pkt.cid⟩] }
                  : Universe).after_registration pkt.cid pkt := by
              simp [Universe.step, hv, hl, hterm, Universe.add_source, hlen]
            have hl2 := alookup_cons_self u.srcs pkt.cid
              (⟨pkt.cid, pkt.priority, pkt.seq_number, 0, some u.next_evs⟩ : Source)
            rw [hstep, after_registration_found _ pkt.cid pkt _ u.next_evs hl2 rfl]
            refine ⟨?_, ?_⟩ <;>
              simp [StepOut.state, docopyB, hcntb, hl, Bool.and_comm]

/-- Witness for Claim C1 at the spec's scenario: source `A` active at
priority 100, packet from new id `B` at priority 50 with start code 0 and
payload all `0x01`. -/
theorem claim_c1_channel_update_rule_witness :
    pkt_b50.terminated = false ∧ 0 < pkt_b50.prop_val_cnt
    ∧ (u_withA.step pkt_b50).isCont = true
    ∧ ((u_withA.step pkt_b50).state.channel_data
        = if (pkt_b50.prop_val.headD 1 == 0)
              && decide (currentMax (u_withA.step pkt_b50).state.prio ≤ pkt_b50.priority)
          then copy_payload pkt_b50.prop_val pkt_b50.prop_val_cnt u_withA.channel_data
          else u_withA.channel_data)
    ∧ ((u_withA.step pkt_b50).state.queued_events
        = u_withA.queued_events
          ++ (if (alookup u_withA.srcs pkt_b50.cid).isNone
              then [⟨.SOURCE_ADDED, pkt_b50.cid⟩] else [])
          ++ (if (pkt_b50.prop_val.headD 1 == 0)
                && decide (currentMax (u_withA.step pkt_b50).state.prio ≤ pkt_b50.priority)
              then [⟨.CHANNEL_DATA_UPDATED, pkt_b50.cid⟩] else [])) :=
  ⟨by decide, by decide, by decide,
    (claim_c1_channel_update_rule u_withA pkt_b50 (by decide) (by decide) (by decide)).1,
    (claim_c1_channel_update_rule u_withA pkt_b50 (by decide) (by decide) (by decide)).2⟩

/-- Claim C10: refuted.  The sentinel's count is not in fact permanent:
after source `A` (registered at priority 100) sends an admissible, non-stale,
non-terminating packet with priority field 50, the tracker count moves to 50
but — through the stored-priority slip of `src.prio = prio.add(...)` — `A`'s
record still says 100, so the subsequent eviction-timer expiry issues
`remove(100)` against the sentinel's own count.  The resulting reachable,
defined-behavior state has an empty source table yet `current_max() = 50`,
strictly below 100. -/
theorem claim_c10_sentinel_floor_violated :
    (u_withA.step pkt_prio50_A).isCont = true
    ∧ ((u_withA.step pkt_prio50_A).state.timer_fire 0).srcs = []
    ∧ ((u_withA.step pkt_prio50_A).state.timer_fire 0).queued_events
        = [⟨.SOURCE_REMOVED, cidA⟩]
    ∧ currentMax ((u_withA.step pkt_prio50_A).state.timer_fire 0).prio = 50
    ∧ currentMax ((u_withA.step pkt_prio50_A).state.timer_fire 0).prio
        < minimum_priority := by
  decide
